import Mathlib

/-!
Verification of the OKX/DeepSeek ETH trading bot (OKX_AI_ETHv5.py, with the
earlier OKX_AI_ETHv1.py parser where noted) against its natural-language
specification.

The Python code is shallowly embedded: pure logic is translated into
executable Lean functions; calls into external systems (the OKX HTTP API,
Python's json.loads, the re module) are modelled as oracle parameters or
environment records, so every theorem is quantified over all possible
behaviours of those externals.  Decimal quantities are modelled as exact
rationals, matching the exact comparisons performed by the source.
-/

/-- JSON values as produced by json.loads, used for the AI decision objects. -/
inductive JValue where
  | jstr : String → JValue
  | jnum : ℚ → JValue
  | jobj : List (String × JValue) → JValue
  | jarr : List JValue → JValue
  | jbool : Bool → JValue
  | jnull : JValue

/-- Dictionary lookup on a JSON value; any non-object has no keys
(in the Python source, indexing a non-dict raises and the surrounding
handler turns that into the failure branch we model with none). -/
def jlookup (v : JValue) (k : String) : Option JValue :=
  match v with
  | .jobj fields => fields.lookup k
  | _ => none

/-- Configuration constants of OKX_AI_ETHv5.py (lines 35-40). -/
def MIN_ORDER_SIZE : ℚ := 1/1000

/-- Maximum order size, 0.010 ETH (OKX_AI_ETHv5.py line 38). -/
def MAX_ORDER_SIZE : ℚ := 1/100

/-- Long poll interval, seconds (OKX_AI_ETHv5.py line 39). -/
def AI_FREQUENCY : Nat := 300

/-- Short poll interval, seconds (OKX_AI_ETHv5.py line 40). -/
def CHECK_PENDING_ORDERS_INTERVAL : Nat := 30

/-- Leverage constant (OKX_AI_ETHv5.py line 36). -/
def LEVERAGE : Nat := 100

/-- Valid actions of the v5 validator (OKX_AI_ETHv5.py line 699). -/
def validActions : List String := [("hold"), ("open_long"), ("open_short")]

/-- Valid actions of the v1 validator, which still allows the close
actions (OKX_AI_ETHv1.py line 523). -/
def validActionsV1 : List String :=
  [("hold"), ("open_long"), ("open_short"), ("close_long"), ("close_short")]

/-- Valid confidence levels (OKX_AI_ETHv5.py line 704). -/
def validConfidences : List String := [("high"), ("medium"), ("low")]

/-- Helper: all listed keys are present in the JSON object. -/
def hasKeys (v : JValue) (ks : List String) : Bool :=
  ks.all fun k => (jlookup v k).isSome

/-- DeepSeekAI._validate_decision_format, generic in the allowed action
list (the v1 and v5 sources differ only in that list): both top-level
objects present, all required sub-fields present, action and
confidence_level members of their enumerations. -/
def validateWith (acts : List String) (d : JValue) : Bool :=
  match jlookup d ("trading_decision"), jlookup d ("position_management") with
  | some td, some pm =>
    hasKeys td [("action"), ("confidence_level"), ("reason")] &&
    hasKeys pm [("position_size"), ("stop_loss_price"), ("take_profit_price")] &&
    (match jlookup td ("action") with
     | some (.jstr a) => acts.contains a
     | _ => false) &&
    (match jlookup td ("confidence_level") with
     | some (.jstr c) => validConfidences.contains c
     | _ => false)
  | _, _ => false

/-- DeepSeekAI._validate_decision_format of OKX_AI_ETHv5.py (lines 682-711). -/
def validate_decision_format (d : JValue) : Bool :=
  validateWith validActions d

/-- DeepSeekAI._validate_decision_format of OKX_AI_ETHv1.py (lines 501-536). -/
def validate_decision_format_v1 (d : JValue) : Bool :=
  validateWith validActionsV1 d

/-- Builds the standard two-level decision object used throughout the source. -/
def mkDecision (action conf reason : String) (size sl tp : ℚ) : JValue :=
  .jobj
    [(("trading_decision"), .jobj
        [(("action"), .jstr action),
         (("confidence_level"), .jstr conf),
         (("reason"), .jstr reason)]),
     (("position_management"), .jobj
        [(("position_size"), .jnum size),
         (("stop_loss_price"), .jnum sl),
         (("take_profit_price"), .jnum tp)])]

/-- Oracle view of the external string machinery used by the parsers:
json.loads (None models a raised JSONDecodeError) and the results of the
re module's pattern searches.  templateMatches: re.findall of the v5
two-level template pattern (OKX_AI_ETHv5.py line 585); nestedMatches:
re.finditer of the v1 generic nested-object pattern (OKX_AI_ETHv1.py
line 453); actionCandidates / reasonCandidates: group(1) of each of the
three action / reason patterns that matched, in pattern order
(OKX_AI_ETHv5.py lines 641-669). -/
structure ParserOracle where
  jsonLoads : String → Option JValue
  templateMatches : String → List String
  nestedMatches : String → List String
  actionCandidates : String → List String
  reasonCandidates : String → List String

/-- Whitespace-run collapsing worker: the flag records whether the
previous character was whitespace, so each whitespace run contributes a
single space. -/
def collapse_go : Bool → List Char → List Char
  | _, [] => []
  | prevWs, c :: rest =>
    if c.isWhitespace then
      if prevWs then collapse_go true rest
      else (' ') :: collapse_go true rest
    else c :: collapse_go false rest

/-- Whitespace-run collapsing, the re.sub of a whitespace run by a single
space performed on extracted JSON candidates (OKX_AI_ETHv5.py line 593). -/
def collapse_spaces (l : List Char) : List Char :=
  collapse_go false l

/-- Python str.strip: drop whitespace from both ends. -/
def str_strip (s : String) : String :=
  String.mk (((s.data.dropWhile Char.isWhitespace).reverse.dropWhile Char.isWhitespace).reverse)

/-- Python str.lower, as a character map (the source only ever lowercases
candidate action words, for which the ASCII mapping is exact). -/
def str_lower (s : String) : String :=
  String.mk (s.data.map Char.toLower)

/-- The two single-character replacements of OKX_AI_ETHv5.py line 591:
newline and tab each become a space. -/
def replace_nl_tab (l : List Char) : List Char :=
  l.map fun c => if c = ('\n') ∨ c = ('\t') then (' ') else c

/-- JSON-candidate cleaning of OKX_AI_ETHv5.py lines 591-593: replace
newlines and tabs by spaces, collapse whitespace runs, strip. -/
def clean_json_str (s : String) : String :=
  str_strip (String.mk (collapse_spaces (replace_nl_tab s.data)))

/-- A single attempt at json.loads plus format validation (the tier-1
pattern of both parsers: parse the whole string, accept when valid). -/
def tier_full (validate : JValue → Bool) (loads : String → Option JValue)
    (s : String) : Option JValue :=
  match loads s with
  | some d => if validate d then some d else none
  | none => none

/-- Iterates the extracted candidates of a regex tier and returns the
first one that parses and validates (the inner for-loops of both
parsers, which continue on any parse or validation failure). -/
def first_valid_json (validate : JValue → Bool) (loads : String → Option JValue)
    (clean : String → String) : List String → Option JValue
  | [] => none
  | m :: rest =>
    match loads (clean m) with
    | some d =>
      if validate d then some d
      else first_valid_json validate loads clean rest
    | none => first_valid_json validate loads clean rest

/-- Action chosen by the heuristic tier (OKX_AI_ETHv5.py lines 640-654):
the first pattern match whose lowercasing lies in the valid action list,
defaulting to hold. -/
def chooseAction (cands : List String) : String :=
  match cands.find? (fun c => validActions.contains (str_lower c)) with
  | some c => str_lower c
  | none => ("hold")

/-- Reason chosen by the heuristic tier (OKX_AI_ETHv5.py lines 656-673):
the first pattern match that is nonempty after stripping, defaulting to
the generic placeholder. -/
def chooseReason (cands : List String) : String :=
  match cands.find? (fun c => !(str_strip c == (""))) with
  | some c => str_strip c
  | none => ("基于市场分析做出的决策")

/-- DeepSeekAI._build_standard_decision_from_response of OKX_AI_ETHv5.py
(lines 623-680): a default hold decision with confidence medium and all
numeric fields 0, into which only action and reason are heuristically
extracted from the text. -/
def build_standard_decision_from_response (po : ParserOracle) (response : String) : JValue :=
  mkDecision (chooseAction (po.actionCandidates response)) ("medium")
    (chooseReason (po.reasonCandidates response)) 0 0 0

/-- DeepSeekAI._parse_ai_response of OKX_AI_ETHv5.py (lines 573-621):
tier 1 parses the whole response; tier 2 tries each match of the
two-level template regex after cleaning; tier 3 falls back to the
field-by-field heuristic builder, which always succeeds.  The source's
outermost except-handler (returning the hold/low default) is unreachable
because the builder body cannot raise; the function is total. -/
def parse_ai_response (po : ParserOracle) (response : String) : JValue :=
  match tier_full validate_decision_format po.jsonLoads response with
  | some d => d
  | none =>
    match first_valid_json validate_decision_format po.jsonLoads clean_json_str
        (po.templateMatches response) with
    | some d => d
    | none => build_standard_decision_from_response po response

/-- Opening brace character (written by code point to keep it out of
literals). -/
def lbrace : Char := Char.ofNat 123

/-- Closing brace character. -/
def rbrace : Char := Char.ofNat 125

/-- Index of the last occurrence of a character, Python's str.rfind. -/
def rfindIdx (l : List Char) (c : Char) : Option Nat :=
  match l.reverse.findIdx? (fun x => x = c) with
  | some i => some (l.length - 1 - i)
  | none => none

/-- Boundary extraction of OKX_AI_ETHv1.py lines 467-468: the substring
from the first opening brace to one past the last closing brace.  When
no opening brace exists the tier is skipped (find returned -1); when no
closing brace exists Python computes end = rfind + 1 = 0 and slices an
empty string, which the Nat subtraction reproduces. -/
def boundary_slice (s : String) : Option String :=
  match s.data.findIdx? (fun x => x = lbrace) with
  | none => none
  | some st =>
    let en : Nat :=
      match rfindIdx s.data rbrace with
      | some j => j + 1
      | none => 0
    some (String.mk ((s.data.drop st).take (en - st)))

/-- The boundary tier: parse and validate the brace-bounded substring
(OKX_AI_ETHv1.py lines 466-478). -/
def boundary_tier (validate : JValue → Bool) (loads : String → Option JValue)
    (s : String) : Option JValue :=
  match boundary_slice s with
  | some b => tier_full validate loads b
  | none => none

/-- Safe default decision of OKX_AI_ETHv1.py lines 486-498 (identical to
the v5 parse-failure default of lines 610-621). -/
def default_decision : JValue :=
  mkDecision ("hold") ("low") ("AI响应解析失败，采用保守策略") 0 0 0

/-- DeepSeekAI._parse_ai_response of OKX_AI_ETHv1.py (lines 441-498):
tier 1 parses the whole response; tier 2 tries each match of the generic
nested-object regex (no cleaning); tier 3 tries the first-brace-to-
last-brace substring; if all fail, the raise is caught and the safe
default returned. -/
def parse_ai_response_v1 (po : ParserOracle) (response : String) : JValue :=
  match tier_full validate_decision_format_v1 po.jsonLoads response with
  | some d => d
  | none =>
    match first_valid_json validate_decision_format_v1 po.jsonLoads id
        (po.nestedMatches response) with
    | some d => d
    | none =>
      match boundary_tier validate_decision_format_v1 po.jsonLoads response with
      | some d => d
      | none => default_decision

/-- Modelled from the spec: the four-tier DecisionParser of spec section
4.1, which inserts the first-brace-to-last-brace boundary tier as tier 3
between the template-regex tier and the field-by-field heuristic tier.
No parser in the source has this four-tier shape; the definition exists
to compare the spec's tier sequence with the v5 parser. -/
def parse_ai_response_spec (po : ParserOracle) (response : String) : JValue :=
  match tier_full validate_decision_format po.jsonLoads response with
  | some d => d
  | none =>
    match first_valid_json validate_decision_format po.jsonLoads clean_json_str
        (po.templateMatches response) with
    | some d => d
    | none =>
      match boundary_tier validate_decision_format po.jsonLoads response with
      | some d => d
      | none => build_standard_decision_from_response po response

/-- DeepSeekAI.get_trading_decision (OKX_AI_ETHv5.py lines 419-549),
restricted to its decision dataflow: a transport failure of the DeepSeek
HTTP call (or any other raised error) is caught and replaced by the
conservative hold decision of lines 538-549; otherwise the response text
is parsed.  Prompt construction and logging do not affect the result and
are elided. -/
def get_trading_decision (po : ParserOracle) (aiHttp : Except Unit String) : JValue :=
  match aiHttp with
  | .ok resp => parse_ai_response po resp
  | .error _ => mkDecision ("hold") ("low") ("AI处理失败") 0 0 0

/-- Environment of OKXDataCollector queries used by the exposure check:
each field is the outcome of one HTTP query, with .error modelling a
raised transport or API error.  For positions, .ok carries the raw pos
field and the average entry price of the (single) position row; an empty
positions response is modelled as pos = 0, which the source treats
identically (flat). -/
structure ExposureEnv where
  pendingRes : Except Unit (List String)
  algoRes : Except Unit (List String)
  posRes : Except Unit (ℚ × ℚ)

/-- Position snapshot returned by OKXDataCollector.get_position_info. -/
structure PositionInfo where
  position_side : String
  position_size : ℚ
  entry_price : ℚ
  leverage : Nat

/-- OKXDataCollector.get_pending_orders (OKX_AI_ETHv5.py lines 317-326):
orders are identified by their ids; a raised error is caught and an
empty list returned. -/
def get_pending_orders (res : Except Unit (List String)) : List String :=
  match res with
  | .ok l => l
  | .error _ => []

/-- OKXDataCollector.get_algo_orders (OKX_AI_ETHv5.py lines 297-315):
the pending conditional (stop-loss/take-profit) orders, identified by
their algo ids; a raised error is caught and an empty list returned. -/
def get_algo_orders (res : Except Unit (List String)) : List String :=
  match res with
  | .ok l => l
  | .error _ => []

/-- OKXDataCollector.get_position_info (OKX_AI_ETHv5.py lines 259-295):
a positive raw pos is a long position, a negative one a short position
of the absolute size; zero (or an empty response) is flat; a raised
error is caught and the flat default returned. -/
def get_position_info (res : Except Unit (ℚ × ℚ)) : PositionInfo :=
  match res with
  | .error _ => { position_side := ("flat"), position_size := 0,
                  entry_price := 0, leverage := LEVERAGE }
  | .ok (pos, avg) =>
    if 0 < pos then
      { position_side := ("long"), position_size := pos,
        entry_price := avg, leverage := LEVERAGE }
    else if pos < 0 then
      { position_side := ("short"), position_size := -pos,
        entry_price := avg, leverage := LEVERAGE }
    else
      { position_side := ("flat"), position_size := 0,
        entry_price := 0, leverage := LEVERAGE }

/-- OKXDataCollector.has_pending_orders_or_tpsl (OKX_AI_ETHv5.py lines
328-354): true as soon as pending orders, or pending conditional
orders, or a position of positive size is found; false otherwise.  The
outer except-handler (returning False) is unreachable because each of
the three queries already absorbs its own failures. -/
def has_pending_orders_or_tpsl (env : ExposureEnv) : Bool :=
  if 0 < (get_pending_orders env.pendingRes).length then true
  else if 0 < (get_algo_orders env.algoRes).length then true
  else if 0 < (get_position_info env.posRes).position_size then true
  else false

/-- Order submissions observable on the exchange, used to state which
requests a scenario actually sends.  A bracketAttempt records one pass
of the take-profit/stop-loss pair submission of _place_tp_sl_order; a
closeOrder records the market order of _close_position. -/
inductive Event where
  | marketOrder (side posSide : String) (sz : ℚ)
  | bracketAttempt (posSide : String) (sz tpPx slPx : ℚ)
  | closeOrder (side posSide : String) (sz : ℚ)

/-- Contract face value ctVal, ETH per lot (OKX_AI_ETHv5.py line 1063). -/
def CONTRACT_VALUE : ℚ := 1/10

/-- Minimum lot count minSz (OKX_AI_ETHv5.py line 1064). -/
def MIN_CONTRACT_SIZE : ℚ := 1/100

/-- OKXTradingExecutor._convert_eth_to_contracts (OKX_AI_ETHv5.py lines
1057-1074): divide by the contract value and raise when below the
minimum lot count.  The source formats the result to two decimals for
the wire; the exact lot count is returned here (every size reaching this
point in the program is a multiple of 0.001 ETH, for which the
formatting is exact). -/
def convert_eth_to_contracts (eth_size : ℚ) : Except String ℚ :=
  let contracts := eth_size / CONTRACT_VALUE
  if contracts < MIN_CONTRACT_SIZE then .error ("转换后的张数小于最小要求")
  else .ok contracts

/-- OKXTradingExecutor._place_order (OKX_AI_ETHv5.py lines 971-1013):
side and position direction derive from the action (anything else
raises, caught as False); a conversion failure is caught and False
returned with nothing submitted; otherwise exactly one market order is
submitted and apiOk (whether the exchange accepted it, a raised
rejection being caught as False) is the result.  The error-text
classification of lines 1006-1012 only writes diagnostics and does not
change the result. -/
def place_order (action : String) (eth_size : ℚ) (apiOk : Bool) : Bool × List Event :=
  let sides : Option (String × String) :=
    if action = ("open_long") then some (("buy"), ("long"))
    else if action = ("open_short") then some (("sell"), ("short"))
    else none
  match sides with
  | none => (false, [])
  | some (side, posSide) =>
    match convert_eth_to_contracts eth_size with
    | .error _ => (false, [])
    | .ok c => (apiOk, [Event.marketOrder side posSide c])

/-- Identifiers returned by the take-profit/stop-loss pair submission. -/
structure AlgoIds where
  tp_algo_id : String
  sl_algo_id : String

/-- Oracle for one attempt of the bracket retry loop: placeResult is the
outcome of _place_tp_sl_order (none models a raised error, after which
the attempt is abandoned); algoOrdersAfter is the algo-id list returned
by get_algo_orders at verification time, five seconds later. -/
structure TpSlAttempt where
  placeResult : Option AlgoIds
  algoOrdersAfter : List String

/-- OKXTradingExecutor._verify_tp_sl_orders_exist (OKX_AI_ETHv5.py lines
866-879): both recorded algo ids must be present among the pending
conditional orders. -/
def verify_tp_sl_orders_exist (ids : AlgoIds) (orders : List String) : Bool :=
  orders.contains ids.tp_algo_id && orders.contains ids.sl_algo_id

/-- The retry loop body of _place_tp_sl_orders_with_retry (OKX_AI_ETHv5.py
lines 831-864): one list element per available attempt (the caller
passes max_retries of them); returns the result together with the number
of attempts consumed. -/
def tp_sl_retry_loop : List TpSlAttempt → Bool × Nat
  | [] => (false, 0)
  | a :: rest =>
    match a.placeResult with
    | some ids =>
      if verify_tp_sl_orders_exist ids a.algoOrdersAfter then (true, 1)
      else
        let r := tp_sl_retry_loop rest
        (r.1, r.2 + 1)
    | none =>
      let r := tp_sl_retry_loop rest
      (r.1, r.2 + 1)

/-- OKXTradingExecutor._place_tp_sl_orders_with_retry (OKX_AI_ETHv5.py
lines 825-864): immediately True for a flat side or nonpositive size
(consuming no attempt), otherwise the bounded retry loop.  The result
pairs the boolean outcome with the number of attempts consumed. -/
def place_tp_sl_orders_with_retry (pos_side : String) (eth_size : ℚ)
    (tp_price sl_price : ℚ) (attempts : List TpSlAttempt) : Bool × Nat :=
  if pos_side = ("flat") ∨ eth_size ≤ 0 then (true, 0)
  else tp_sl_retry_loop attempts

/-- Action string extracted by execute_trade's first line; a missing key
raises (caught as False), and a non-string action falls through every
comparison to the unknown-action branch, so both are modelled as none. -/
def getActionStr (d : JValue) : Option String :=
  match jlookup d ("trading_decision") with
  | some td =>
    match jlookup td ("action") with
    | some (.jstr a) => some a
    | _ => none
  | none => none

/-- Numeric field extraction decision[k1][k2]; a missing key raises a
KeyError and a non-numeric value raises a TypeError at the first
comparison, both caught by execute_trade's handler, so both are none. -/
def getNumField (d : JValue) (k1 k2 : String) : Option ℚ :=
  match jlookup d k1 with
  | some o =>
    match jlookup o k2 with
    | some (.jnum q) => some q
    | _ => none
  | none => none

/-- The size clamp of execute_trade (OKX_AI_ETHv5.py lines 732-735):
below the minimum becomes 0, above the maximum becomes the maximum. -/
def clamp_position_size (q : ℚ) : ℚ :=
  if q < MIN_ORDER_SIZE then 0
  else if q > MAX_ORDER_SIZE then MAX_ORDER_SIZE
  else q

/-- Environment of one execute_trade run: whether the exchange accepts
the opening market order, the entry price resolved by
_get_entry_price_with_retry (none when all its polls were exhausted),
and the oracle list for the bracket retry attempts. -/
structure ExecEnv where
  placeApiOk : Bool
  entryPx : Option ℚ
  attempts : List TpSlAttempt

/-- OKXTradingExecutor.execute_trade (OKX_AI_ETHv5.py lines 726-806).
Returns the boolean result together with the submissions made: extract
action and size (failure is caught as False); clamp the size; hold
returns True; an open action with zero clamped size skips submission
and returns True; otherwise a market order is placed, the entry price
resolved (falling back to current_price), the take-profit/stop-loss pair
chosen (fixed offsets in test mode, the AI's prices otherwise; a
missing or non-numeric price is caught as False), the direction sanity
check applied (False on violation, with no further submission), and
finally the bracket retry loop run, whose outcome does not change the
returned success. -/
def execute_trade (decision : JValue) (current_price : ℚ) (is_test : Bool)
    (env : ExecEnv) : Bool × List Event :=
  match getActionStr decision,
        getNumField decision ("position_management") ("position_size") with
  | some action, some rawSize =>
    let ps := clamp_position_size rawSize
    if action = ("hold") then (true, [])
    else if action = ("open_long") ∨ action = ("open_short") then
      if 0 < ps then
        let pr := place_order action ps env.placeApiOk
        if pr.1 then
          let entry := env.entryPx.getD current_price
          let tpsl : Option (ℚ × ℚ) :=
            if is_test then
              if action = ("open_long") then some (entry + 10, entry - 10)
              else some (entry - 10, entry + 10)
            else
              match getNumField decision ("position_management") ("take_profit_price"),
                    getNumField decision ("position_management") ("stop_loss_price") with
              | some t, some s => some (t, s)
              | _, _ => none
          match tpsl with
          | none => (false, pr.2)
          | some (tpPx, slPx) =>
            if action = ("open_long") then
              if tpPx ≤ entry ∨ slPx ≥ entry then (false, pr.2)
              else
                -- action.replace of the open_ marker; on the two actions that reach
                -- this branch it yields exactly long or short
                let posSide := if action = ("open_long") then ("long") else ("short")
                let br := place_tp_sl_orders_with_retry posSide ps tpPx slPx env.attempts
                (true, pr.2 ++ List.replicate br.2 (Event.bracketAttempt posSide ps tpPx slPx))
            else
              if tpPx ≥ entry ∨ slPx ≤ entry then (false, pr.2)
              else
                -- action.replace of the open_ marker; on the two actions that reach
                -- this branch it yields exactly long or short
                let posSide := if action = ("open_long") then ("long") else ("short")
                let br := place_tp_sl_orders_with_retry posSide ps tpPx slPx env.attempts
                (true, pr.2 ++ List.replicate br.2 (Event.bracketAttempt posSide ps tpPx slPx))
        else (pr.1, pr.2)
      else (true, [])
    else (false, [])
  | _, _ => (false, [])

/-- Environment of one ETHTradingBot.run_dynamic_cycle invocation:
outcomes of the exposure queries, the close prices of the fetched
klines, the DeepSeek HTTP outcome, the parser oracles, and the trade
execution environment. -/
structure BotEnv where
  exposure : ExposureEnv
  klines : List ℚ
  aiHttp : Except Unit String
  po : ParserOracle
  exec : ExecEnv

/-- ETHTradingBot.run_dynamic_cycle (OKX_AI_ETHv5.py lines 1311-1360):
when the exposure check reports exposure, return the short interval at
once; otherwise gather the market snapshot (current price = close of
the first kline, 0 when none), obtain and execute the AI decision, and
return the long interval whatever the execution outcome.  The outer
except-handler also returns the long interval, and every sub-step
already absorbs its own failures, so the function is total. -/
def run_dynamic_cycle (env : BotEnv) : Nat :=
  if has_pending_orders_or_tpsl env.exposure then CHECK_PENDING_ORDERS_INTERVAL
  else
    let current_price := env.klines.head?.getD 0
    let ai_decision := get_trading_decision env.po env.aiHttp
    let _success := execute_trade ai_decision current_price false env.exec
    AI_FREQUENCY

/-- A concrete AI response body: a schema-valid decision JSON in which the
two top-level objects are separated by a space before the comma (legal
JSON whitespace, but rejected by the v5 template regex, which demands
the comma immediately after the closing brace). -/
def cexBoundary : String := "\x7b\"trading_decision\": \x7b\"action\": \"open_long\", \"confidence_level\": \"high\", \"reason\": \"r\"\x7d , \"position_management\": \x7b\"position_size\": 0.005, \"stop_loss_price\": 1, \"take_profit_price\": 2\x7d\x7d"

/-- The concrete AI response: a stray character before the decision JSON,
so that full-string parsing fails while the first-brace-to-last-brace
substring is exactly the valid decision JSON. -/
def cexStr : String := ("x") ++ cexBoundary

/-- The decision encoded by cexBoundary, as json.loads returns it. -/
def cexDecision : JValue := mkDecision ("open_long") ("high") ("r") (1/200) 1 2

/-- Behaviour of Python's json.loads on the strings of this scenario:
cexBoundary is valid JSON denoting cexDecision; cexStr (leading stray
character) and every other string of the scenario fail to parse. -/
def jsonLoadsCex : String → Option JValue :=
  fun s => if s = cexBoundary then some cexDecision else none

/-- Behaviour of the re-module searches on cexStr: the v5 template
pattern does not match (the space before the comma breaks it), the v1
generic nested pattern does not match (text intervenes between the two
inner objects), and the heuristic action/reason patterns match
open_long and r from the quoted-JSON forms. -/
def poCex : ParserOracle :=
  { jsonLoads := jsonLoadsCex
    templateMatches := fun _ => []
    nestedMatches := fun _ => []
    actionCandidates := fun _ => [("open_long")]
    reasonCandidates := fun _ => [("r")] }

/-- Oracle in which every external search fails, for exercising the
all-tiers-fail path of the parsers. -/
def poEmpty : ParserOracle :=
  { jsonLoads := fun _ => none
    templateMatches := fun _ => []
    nestedMatches := fun _ => []
    actionCandidates := fun _ => []
    reasonCandidates := fun _ => [] }

/-- Any decision returned by the full-string tier passed validation. -/
theorem tier_full_valid (v : JValue → Bool) (loads : String → Option JValue)
    (s : String) (d : JValue) (h : tier_full v loads s = some d) : v d = true := by
  unfold tier_full at h
  cases hl : loads s with
  | none => rw [hl] at h; simp at h
  | some d0 =>
    rw [hl] at h
    by_cases hv : v d0 = true
    · simp [hv] at h; rw [← h]; exact hv
    · simp [hv] at h

/-- Any decision returned by a regex tier passed validation. -/
theorem first_valid_json_valid (v : JValue → Bool) (loads : String → Option JValue)
    (clean : String → String) (l : List String) (d : JValue)
    (h : first_valid_json v loads clean l = some d) : v d = true := by
  induction l with
  | nil => simp [first_valid_json] at h
  | cons m rest ih =>
    unfold first_valid_json at h
    cases hl : loads (clean m) with
    | none => rw [hl] at h; exact ih h
    | some d0 =>
      rw [hl] at h
      by_cases hv : v d0 = true
      · simp [hv] at h; rw [← h]; exact hv
      · simp [hv] at h; exact ih h

/-- Validation of a standard-shape decision object reduces to the two
enumeration checks. -/
theorem validate_mkDecision (a c r : String) (sz sl tp : ℚ) :
    validate_decision_format (mkDecision a c r sz sl tp) =
      (validActions.contains a && validConfidences.contains c) := rfl

/-- The v1 validator on a standard-shape decision object. -/
theorem validate_v1_mkDecision (a c r : String) (sz sl tp : ℚ) :
    validate_decision_format_v1 (mkDecision a c r sz sl tp) =
      (validActionsV1.contains a && validConfidences.contains c) := rfl

/-- The heuristically chosen action is always in the valid action list. -/
theorem chooseAction_mem (cands : List String) :
    validActions.contains (chooseAction cands) = true := by
  unfold chooseAction
  cases hf : cands.find? (fun c => validActions.contains (str_lower c)) with
  | none => rfl
  | some c =>
    have hp := List.find?_some hf
    simpa using hp

/-- The heuristic builder always produces a decision that passes the v5
format validation. -/
theorem build_standard_valid (po : ParserOracle) (s : String) :
    validate_decision_format (build_standard_decision_from_response po s) = true := by
  unfold build_standard_decision_from_response
  rw [validate_mkDecision]
  rw [chooseAction_mem]
  rfl

/-- Field access on a standard-shape decision: the action. -/
theorem getActionStr_mkDecision (a c r : String) (sz sl tp : ℚ) :
    getActionStr (mkDecision a c r sz sl tp) = some a := rfl

/-- Field access on a standard-shape decision: the position size. -/
theorem getSize_mkDecision (a c r : String) (sz sl tp : ℚ) :
    getNumField (mkDecision a c r sz sl tp) ("position_management") ("position_size")
      = some sz := rfl

/-- Field access on a standard-shape decision: the stop-loss price. -/
theorem getSl_mkDecision (a c r : String) (sz sl tp : ℚ) :
    getNumField (mkDecision a c r sz sl tp) ("position_management") ("stop_loss_price")
      = some sl := rfl

/-- Field access on a standard-shape decision: the take-profit price. -/
theorem getTp_mkDecision (a c r : String) (sz sl tp : ℚ) :
    getNumField (mkDecision a c r sz sl tp) ("position_management") ("take_profit_price")
      = some tp := rfl

/-- Field access on a standard-shape decision: the confidence level. -/
theorem getConfidence_mkDecision (a c r : String) (sz sl tp : ℚ) :
    (jlookup (mkDecision a c r sz sl tp) ("trading_decision")).bind
      (fun td => jlookup td ("confidence_level")) = some (.jstr c) := rfl

/-- C6: the clamping step of execute_trade maps position_size below
MIN_ORDER_SIZE to exactly 0 and above MAX_ORDER_SIZE to exactly
MAX_ORDER_SIZE, never rejecting a size; the post-clamp size is always
exactly 0 or within the closed interval from MIN_ORDER_SIZE to
MAX_ORDER_SIZE. -/
theorem c6_clamp_bounds (q : ℚ) :
    (q < MIN_ORDER_SIZE → clamp_position_size q = 0)
    ∧ (q > MAX_ORDER_SIZE → clamp_position_size q = MAX_ORDER_SIZE)
    ∧ (clamp_position_size q = 0 ∨
        (MIN_ORDER_SIZE ≤ clamp_position_size q ∧ clamp_position_size q ≤ MAX_ORDER_SIZE)) := by
  have hmm : MIN_ORDER_SIZE < MAX_ORDER_SIZE := by
    norm_num [MIN_ORDER_SIZE, MAX_ORDER_SIZE]
  unfold clamp_position_size
  split_ifs with h1 h2
  · exact ⟨fun _ => rfl, fun hq => absurd hq (by linarith), Or.inl rfl⟩
  · exact ⟨fun hq => absurd hq h1, fun _ => rfl, Or.inr ⟨le_of_lt hmm, le_refl _⟩⟩
  · exact ⟨fun hq => absurd hq h1, fun hq => absurd hq h2, Or.inr ⟨not_lt.mp h1, not_lt.mp h2⟩⟩

/-- C6 witness: concrete clamps at 0.0005 (below the minimum) and 0.02
(above the maximum). -/
theorem c6_clamp_witness :
    ((1:ℚ)/2000 < MIN_ORDER_SIZE ∧ clamp_position_size ((1:ℚ)/2000) = 0)
    ∧ ((2:ℚ)/100 > MAX_ORDER_SIZE ∧ clamp_position_size ((2:ℚ)/100) = MAX_ORDER_SIZE) := by
  have hlow : (1:ℚ)/2000 < MIN_ORDER_SIZE := by norm_num [MIN_ORDER_SIZE]
  have hhigh : (2:ℚ)/100 > MAX_ORDER_SIZE := by norm_num [MAX_ORDER_SIZE]
  exact ⟨⟨hlow, (c6_clamp_bounds ((1:ℚ)/2000)).1 hlow⟩,
         ⟨hhigh, (c6_clamp_bounds ((2:ℚ)/100)).2.1 hhigh⟩⟩

/-- C10: calling the bracket placement routine with a flat side or a
nonpositive size returns True immediately, consuming no attempt (so no
conditional-order submission and no verification occur), for any attempt
oracles whatsoever. -/
theorem c10_flat_returns_true_trivially (ps : String) (sz tp sl : ℚ)
    (atts : List TpSlAttempt) (h : ps = ("flat") ∨ sz ≤ 0) :
    place_tp_sl_orders_with_retry ps sz tp sl atts = (true, 0) := by
  unfold place_tp_sl_orders_with_retry
  rw [if_pos h]

/-- C10 witness: the flat call returns True with zero attempts consumed
even when an attempt oracle is available. -/
theorem c10_flat_witness :
    place_tp_sl_orders_with_retry ("flat") 1 100 90
      [{ placeResult := none, algoOrdersAfter := [] }] = (true, 0) :=
  c10_flat_returns_true_trivially ("flat") 1 100 90
    [{ placeResult := none, algoOrdersAfter := [] }] (Or.inl rfl)

/-- The retry loop succeeds exactly when some available attempt both
places the pair and verifies both ids present. -/
theorem tp_sl_retry_loop_true_iff (l : List TpSlAttempt) :
    (tp_sl_retry_loop l).1 = true ↔
      ∃ a ∈ l, ∃ ids, a.placeResult = some ids ∧
        verify_tp_sl_orders_exist ids a.algoOrdersAfter = true := by
  induction l with
  | nil => simp [tp_sl_retry_loop]
  | cons a rest ih =>
    unfold tp_sl_retry_loop
    cases hp : a.placeResult with
    | none => simp [hp, ih]
    | some ids =>
      by_cases hv : verify_tp_sl_orders_exist ids a.algoOrdersAfter = true
      · simp [hp, hv]
      · simp [hp, hv, ih]

/-- A failing retry loop consumes every available attempt. -/
theorem tp_sl_retry_loop_false_count (l : List TpSlAttempt)
    (h : (tp_sl_retry_loop l).1 = false) : (tp_sl_retry_loop l).2 = l.length := by
  induction l with
  | nil => rfl
  | cons a rest ih =>
    unfold tp_sl_retry_loop at h ⊢
    cases hp : a.placeResult with
    | none =>
      rw [hp] at h
      simp at h ⊢
      have hr := ih h
      omega
    | some ids =>
      rw [hp] at h
      by_cases hv : verify_tp_sl_orders_exist ids a.algoOrdersAfter = true
      · simp [hv] at h
      · simp [hv] at h ⊢
        have hr := ih h
        omega

/-- C4: for a long or short side and positive size with the default five
attempt oracles, the bracket routine returns True exactly when some
attempt places the pair and verifies both recorded ids present among
the pending conditional orders; otherwise it returns False having
consumed exactly five attempts.  Totality of the function is the absence
of any third outcome or unbounded looping. -/
theorem c4_bracket_retry_outcomes (ps : String) (sz tp sl : ℚ)
    (atts : List TpSlAttempt)
    (hps : ps = ("long") ∨ ps = ("short")) (hsz : 0 < sz) (hlen : atts.length = 5) :
    ((place_tp_sl_orders_with_retry ps sz tp sl atts).1 = true ↔
      ∃ a ∈ atts, ∃ ids, a.placeResult = some ids ∧
        verify_tp_sl_orders_exist ids a.algoOrdersAfter = true)
    ∧ ((place_tp_sl_orders_with_retry ps sz tp sl atts).1 = false →
        (place_tp_sl_orders_with_retry ps sz tp sl atts).2 = 5) := by
  have hcond : ¬(ps = ("flat") ∨ sz ≤ 0) := by
    rcases hps with h | h <;> subst h <;>
      simp <;> linarith
  unfold place_tp_sl_orders_with_retry
  rw [if_neg hcond]
  exact ⟨tp_sl_retry_loop_true_iff atts,
         fun h => by rw [tp_sl_retry_loop_false_count atts h, hlen]⟩

/-- Attempt oracles for the C4 witness: five attempts whose pair
placements all fail. -/
def attsAllFail : List TpSlAttempt :=
  List.replicate 5 { placeResult := none, algoOrdersAfter := [] }

/-- C4 witness: with five failing attempts the routine returns False
after consuming exactly five attempts. -/
theorem c4_bracket_retry_witness :
    (place_tp_sl_orders_with_retry ("long") (1/1000) 100 90 attsAllFail).2 = 5 := by
  have h := (c4_bracket_retry_outcomes ("long") (1/1000) 100 90 attsAllFail
    (Or.inl rfl) (by norm_num) rfl).2
  apply h
  have hcond : ¬((("long") : String) = ("flat") ∨ (1:ℚ)/1000 ≤ 0) := by
    push_neg
    exact ⟨by decide, by norm_num⟩
  unfold place_tp_sl_orders_with_retry
  rw [if_neg hcond]
  rfl

/-- C8: for an open action, the order placer converts the base quantity
to lots by the fixed divisor; below the minimum lot count it returns
False with no submission; otherwise it submits exactly one market order
carrying that lot count and returns the exchange's verdict; in every
case at most one submission is made. -/
theorem c8_place_order_single_attempt (action : String) (q : ℚ) (apiOk : Bool)
    (h : action = ("open_long") ∨ action = ("open_short")) :
    (q / CONTRACT_VALUE < MIN_CONTRACT_SIZE →
      place_order action q apiOk = (false, []))
    ∧ (¬ q / CONTRACT_VALUE < MIN_CONTRACT_SIZE →
      (place_order action q apiOk).1 = apiOk ∧
      ∃ side posSide, (place_order action q apiOk).2 =
        [Event.marketOrder side posSide (q / CONTRACT_VALUE)])
    ∧ (place_order action q apiOk).2.length ≤ 1 := by
  rcases h with h | h <;> subst h <;>
  · by_cases hc : q / CONTRACT_VALUE < MIN_CONTRACT_SIZE
    · refine ⟨fun _ => ?_, fun hn => absurd hc hn, ?_⟩ <;>
        simp [place_order, convert_eth_to_contracts, hc]
    · refine ⟨fun hy => absurd hy hc, fun _ => ?_, ?_⟩ <;>
        simp [place_order, convert_eth_to_contracts, hc]

/-- C8 witness: 0.0005 ETH converts to 0.005 lots, below the 0.01
minimum, so nothing is submitted and False is returned. -/
theorem c8_place_order_witness :
    place_order ("open_long") (1/2000) true = (false, []) :=
  (c8_place_order_single_attempt ("open_long") (1/2000) true (Or.inl rfl)).1
    (by norm_num [CONTRACT_VALUE, MIN_CONTRACT_SIZE])

/-- A positive reported position size is exactly a non-zero raw pos. -/
theorem position_size_pos_iff (pq aq : ℚ) :
    (0 < (get_position_info (.ok (pq, aq))).position_size) ↔ pq ≠ 0 := by
  unfold get_position_info
  simp only []
  split_ifs with h1 h2
  · simp only []
    exact ⟨fun _ => ne_of_gt h1, fun _ => h1⟩
  · simp only []
    constructor
    · intro _; exact ne_of_lt h2
    · intro _; linarith
  · simp only []
    have hz : pq = 0 := le_antisymm (not_lt.mp h1) (not_lt.mp h2)
    simp [hz]

/-- C3: under successful queries, the exposure check returns true exactly
when pending orders, conditional orders, or a non-zero position exist,
and returns false only when all three are empty or zero; when every
query fails, the fallbacks make it return false rather than raising. -/
theorem c3_exposure_iff (env : ExposureEnv) (P A : List String) (pq aq : ℚ)
    (hp : env.pendingRes = .ok P) (ha : env.algoRes = .ok A)
    (hq : env.posRes = .ok (pq, aq)) :
    (has_pending_orders_or_tpsl env = true ↔ (P ≠ [] ∨ A ≠ [] ∨ pq ≠ 0))
    ∧ has_pending_orders_or_tpsl
        { pendingRes := .error (), algoRes := .error (), posRes := .error () } = false := by
  constructor
  · unfold has_pending_orders_or_tpsl
    rw [hp, ha, hq]
    show (if 0 < P.length then true
          else if 0 < A.length then true
          else if 0 < (get_position_info (.ok (pq, aq))).position_size then true
          else false) = true ↔ _
    split_ifs with h1 h2 h3
    · simp [List.length_pos.mp h1]
    · simp [List.length_pos.mp h2]
    · simp [(position_size_pos_iff pq aq).mp h3]
    · have e1 : P = [] := List.length_eq_zero.mp (Nat.eq_zero_of_not_pos h1)
      have e2 : A = [] := List.length_eq_zero.mp (Nat.eq_zero_of_not_pos h2)
      have e3 : pq = 0 := by
        by_contra hne
        exact h3 ((position_size_pos_iff pq aq).mpr hne)
      simp [e1, e2, e3]
  · rfl

/-- C3 witness: one pending order yields exposure; the all-failure
environment yields false. -/
theorem c3_exposure_witness :
    has_pending_orders_or_tpsl
      { pendingRes := .ok [("ord1")], algoRes := .ok [], posRes := .ok (0, 0) } = true
    ∧ has_pending_orders_or_tpsl
      { pendingRes := .error (), algoRes := .error (), posRes := .error () } = false := by
  have h := c3_exposure_iff
    { pendingRes := .ok [("ord1")], algoRes := .ok [], posRes := .ok (0, 0) }
    [("ord1")] [] 0 0 rfl rfl rfl
  exact ⟨h.1.mpr (Or.inl (by simp)), h.2⟩

/-- C2: one invocation of run_dynamic_cycle always returns an interval
(totality), equal to the short interval exactly when the exposure check
reports exposure and to the long interval in every other case, whatever
the outcomes of the kline fetch, the AI call, the parse, and the trade
execution; and the two intervals are 30 and 300 seconds. -/
theorem c2_cycle_interval (env : BotEnv) :
    (run_dynamic_cycle env = CHECK_PENDING_ORDERS_INTERVAL ∨
      run_dynamic_cycle env = AI_FREQUENCY)
    ∧ (has_pending_orders_or_tpsl env.exposure = true →
        run_dynamic_cycle env = CHECK_PENDING_ORDERS_INTERVAL)
    ∧ (has_pending_orders_or_tpsl env.exposure = false →
        run_dynamic_cycle env = AI_FREQUENCY)
    ∧ CHECK_PENDING_ORDERS_INTERVAL = 30 ∧ AI_FREQUENCY = 300 := by
  unfold run_dynamic_cycle
  by_cases h : has_pending_orders_or_tpsl env.exposure = true
  · refine ⟨Or.inl (by rw [if_pos h]), fun _ => by rw [if_pos h], ?_, rfl, rfl⟩
    intro hf
    rw [h] at hf
    exact absurd hf (by simp)
  · have hf : has_pending_orders_or_tpsl env.exposure = false := by
      simpa using h
    refine ⟨Or.inr (by rw [if_neg h]), fun ht => absurd ht h, fun _ => by rw [if_neg h],
      rfl, rfl⟩

/-- C2 witness: an idle environment (all queries failing, AI failing)
still completes and yields the long interval. -/
theorem c2_cycle_witness :
    run_dynamic_cycle
      { exposure := { pendingRes := .error (), algoRes := .error (), posRes := .error () }
        klines := []
        aiHttp := .error ()
        po := poEmpty
        exec := { placeApiOk := false, entryPx := none, attempts := [] } } = AI_FREQUENCY := by
  exact (c2_cycle_interval _).2.2.1 rfl

/-- C1: for every input string and every behaviour of the external JSON
and regex machinery, the v5 parser returns a decision that passes the
schema validation (both objects present, all sub-fields present, action
and confidence in their enumerations); totality of the function is the
absence of any outward exception.  When the full-string tier, every
template-regex candidate, and the heuristic action extraction all fail,
the returned decision has action hold and position_size 0. -/
theorem c1_parser_always_schema_valid (po : ParserOracle) (response : String) :
    validate_decision_format (parse_ai_response po response) = true
    ∧ (tier_full validate_decision_format po.jsonLoads response = none →
       first_valid_json validate_decision_format po.jsonLoads clean_json_str
         (po.templateMatches response) = none →
       (∀ c ∈ po.actionCandidates response,
         validActions.contains (str_lower c) = false) →
       getActionStr (parse_ai_response po response) = some ("hold")
       ∧ getNumField (parse_ai_response po response)
           ("position_management") ("position_size") = some 0) := by
  constructor
  · unfold parse_ai_response
    cases h1 : tier_full validate_decision_format po.jsonLoads response with
    | some d => exact tier_full_valid _ _ _ _ h1
    | none =>
      cases h2 : first_valid_json validate_decision_format po.jsonLoads clean_json_str
          (po.templateMatches response) with
      | some d => exact first_valid_json_valid _ _ _ _ _ h2
      | none => exact build_standard_valid po response
  · intro h1 h2 h3
    unfold parse_ai_response
    rw [h1, h2]
    have hfind : (po.actionCandidates response).find?
        (fun c => validActions.contains (str_lower c)) = none := by
      rw [List.find?_eq_none]
      intro x hx
      simpa using h3 x hx
    have hact : chooseAction (po.actionCandidates response) = ("hold") := by
      unfold chooseAction
      rw [hfind]
    unfold build_standard_decision_from_response
    rw [hact]
    exact ⟨getActionStr_mkDecision _ _ _ _ _ _, getSize_mkDecision _ _ _ _ _ _⟩

/-- C1 witness: with every external search failing on a garbage input,
the parser returns the hold decision with zero size. -/
theorem c1_parser_witness :
    getActionStr (parse_ai_response poEmpty ("garbage")) = some ("hold")
    ∧ getNumField (parse_ai_response poEmpty ("garbage"))
        ("position_management") ("position_size") = some 0 := by
  exact (c1_parser_always_schema_valid poEmpty ("garbage")).2 rfl rfl
    (by intro c hc; simp [poEmpty] at hc)

/-- C9: every decision built by the field-by-field heuristic tier has
position_size, stop_loss_price and take_profit_price all 0 and
confidence_level medium, for any response text and any regex behaviour;
consequently executing such a decision submits nothing and returns True
(the zero size clamps to zero and the open branch is skipped). -/
theorem c9_heuristic_decision_inert (po : ParserOracle) (resp : String)
    (cp : ℚ) (env : ExecEnv) :
    getNumField (build_standard_decision_from_response po resp)
      ("position_management") ("position_size") = some 0
    ∧ getNumField (build_standard_decision_from_response po resp)
      ("position_management") ("stop_loss_price") = some 0
    ∧ getNumField (build_standard_decision_from_response po resp)
      ("position_management") ("take_profit_price") = some 0
    ∧ (jlookup (build_standard_decision_from_response po resp)
        ("trading_decision")).bind (fun td => jlookup td ("confidence_level"))
        = some (.jstr ("medium"))
    ∧ execute_trade (build_standard_decision_from_response po resp) cp false env
        = (true, []) := by
  refine ⟨rfl, rfl, rfl, rfl, ?_⟩
  have hmem := chooseAction_mem (po.actionCandidates resp)
  have hcases : chooseAction (po.actionCandidates resp) = ("hold")
      ∨ chooseAction (po.actionCandidates resp) = ("open_long")
      ∨ chooseAction (po.actionCandidates resp) = ("open_short") := by
    simpa [validActions] using hmem
  have hclamp : clamp_position_size 0 = 0 := by
    unfold clamp_position_size
    rw [if_pos (by norm_num [MIN_ORDER_SIZE])]
  unfold build_standard_decision_from_response
  unfold execute_trade
  rw [getActionStr_mkDecision, getSize_mkDecision]
  simp only []
  rcases hcases with h | h | h <;> rw [h] <;> simp [hclamp]

/-- C5: with an accepted opening order and a positive clamped size, the
executor proceeds to bracket placement only when the take-profit and
stop-loss prices are on the correct sides of the entry price (strictly
above/below for a long, strictly below/above for a short); when the
check fails it returns False having submitted only the opening market
order — no bracket attempt and no position-closing order. -/
theorem c5_direction_check (d : JValue) (cp : ℚ) (env : ExecEnv) (a : String)
    (q tpq slq : ℚ)
    (ha : getActionStr d = some a)
    (hq : getNumField d ("position_management") ("position_size") = some q)
    (htp : getNumField d ("position_management") ("take_profit_price") = some tpq)
    (hsl : getNumField d ("position_management") ("stop_loss_price") = some slq)
    (hpos : 0 < clamp_position_size q)
    (hok : env.placeApiOk = true) :
    (a = ("open_long") → tpq ≤ env.entryPx.getD cp ∨ slq ≥ env.entryPx.getD cp →
      execute_trade d cp false env =
        (false, [Event.marketOrder ("buy") ("long")
          (clamp_position_size q / CONTRACT_VALUE)]))
    ∧ (a = ("open_short") → tpq ≥ env.entryPx.getD cp ∨ slq ≤ env.entryPx.getD cp →
      execute_trade d cp false env =
        (false, [Event.marketOrder ("sell") ("short")
          (clamp_position_size q / CONTRACT_VALUE)]))
    ∧ (∀ ps1 sz1 t1 s1,
        Event.bracketAttempt ps1 sz1 t1 s1 ∈ (execute_trade d cp false env).2 →
        (a = ("open_long") → env.entryPx.getD cp < tpq ∧ slq < env.entryPx.getD cp)
        ∧ (a = ("open_short") → tpq < env.entryPx.getD cp ∧ env.entryPx.getD cp < slq))
    ∧ (∀ s1 p1 c1, Event.closeOrder s1 p1 c1 ∉ (execute_trade d cp false env).2) := by
  have hmin : MIN_ORDER_SIZE ≤ clamp_position_size q := by
    unfold clamp_position_size at hpos ⊢
    split_ifs at hpos ⊢ with h1 h2
    · exact absurd hpos (lt_irrefl 0)
    · exact le_of_lt (by norm_num [MIN_ORDER_SIZE, MAX_ORDER_SIZE])
    · exact not_lt.mp h1
  have hnc : ¬ (clamp_position_size q / CONTRACT_VALUE < MIN_CONTRACT_SIZE) := by
    rw [not_lt]
    have h1000 : (1:ℚ)/1000 ≤ clamp_position_size q := by
      simpa [MIN_ORDER_SIZE] using hmin
    have h10 : clamp_position_size q / CONTRACT_VALUE = 10 * clamp_position_size q := by
      rw [CONTRACT_VALUE]
      ring
    rw [h10, MIN_CONTRACT_SIZE]
    linarith
  have hprL : place_order ("open_long") (clamp_position_size q) env.placeApiOk
      = (true, [Event.marketOrder ("buy") ("long")
          (clamp_position_size q / CONTRACT_VALUE)]) := by
    rw [hok]
    simp [place_order, convert_eth_to_contracts, hnc]
  have hprS : place_order ("open_short") (clamp_position_size q) env.placeApiOk
      = (true, [Event.marketOrder ("sell") ("short")
          (clamp_position_size q / CONTRACT_VALUE)]) := by
    rw [hok]
    simp [place_order, convert_eth_to_contracts, hnc]
  by_cases haL : a = ("open_long")
  · subst haL
    by_cases hinv : tpq ≤ env.entryPx.getD cp ∨ slq ≥ env.entryPx.getD cp
    · have hred : execute_trade d cp false env =
          (false, [Event.marketOrder ("buy") ("long")
            (clamp_position_size q / CONTRACT_VALUE)]) := by
        unfold execute_trade
        rw [ha, hq]
        simp [htp, hsl, hpos, hprL, hinv]
      refine ⟨fun _ _ => hred, fun hc => by simp at hc, ?_, ?_⟩
      · intro ps1 sz1 t1 s1 hmem
        rw [hred] at hmem
        simp at hmem
      · intro s1 p1 c1 hmem
        rw [hred] at hmem
        simp at hmem
    · have hdir : env.entryPx.getD cp < tpq ∧ slq < env.entryPx.getD cp := by
        push_neg at hinv
        exact ⟨hinv.1, hinv.2⟩
      have hred : execute_trade d cp false env =
          (true, [Event.marketOrder ("buy") ("long")
              (clamp_position_size q / CONTRACT_VALUE)] ++
            List.replicate
              (place_tp_sl_orders_with_retry ("long") (clamp_position_size q)
                tpq slq env.attempts).2
              (Event.bracketAttempt ("long") (clamp_position_size q) tpq slq)) := by
        unfold execute_trade
        rw [ha, hq]
        simp [htp, hsl, hpos, hprL, hinv]
      refine ⟨fun _ hc => absurd hc hinv, fun hc => by simp at hc, ?_, ?_⟩
      · intro ps1 sz1 t1 s1 _
        exact ⟨fun _ => hdir, fun hc => by simp at hc⟩
      · intro s1 p1 c1 hmem
        rw [hred] at hmem
        simp [List.mem_replicate] at hmem
  · by_cases haS : a = ("open_short")
    · subst haS
      by_cases hinv : tpq ≥ env.entryPx.getD cp ∨ slq ≤ env.entryPx.getD cp
      · have hred : execute_trade d cp false env =
            (false, [Event.marketOrder ("sell") ("short")
              (clamp_position_size q / CONTRACT_VALUE)]) := by
          unfold execute_trade
          rw [ha, hq]
          simp [htp, hsl, hpos, hprS, hinv]
        refine ⟨fun hc => by simp at hc, fun _ _ => hred, ?_, ?_⟩
        · intro ps1 sz1 t1 s1 hmem
          rw [hred] at hmem
          simp at hmem
        · intro s1 p1 c1 hmem
          rw [hred] at hmem
          simp at hmem
      · have hdir : tpq < env.entryPx.getD cp ∧ env.entryPx.getD cp < slq := by
          push_neg at hinv
          exact ⟨hinv.1, hinv.2⟩
        have hred : execute_trade d cp false env =
            (true, [Event.marketOrder ("sell") ("short")
                (clamp_position_size q / CONTRACT_VALUE)] ++
              List.replicate
                (place_tp_sl_orders_with_retry ("short") (clamp_position_size q)
                  tpq slq env.attempts).2
                (Event.bracketAttempt ("short") (clamp_position_size q) tpq slq)) := by
          unfold execute_trade
          rw [ha, hq]
          simp [htp, hsl, hpos, hprS, hinv]
        refine ⟨fun hc => by simp at hc, fun _ hc => absurd hc hinv, ?_, ?_⟩
        · intro ps1 sz1 t1 s1 _
          exact ⟨fun hc => by simp at hc, fun _ => hdir⟩
        · intro s1 p1 c1 hmem
          rw [hred] at hmem
          simp [List.mem_replicate] at hmem
    · have hred : (execute_trade d cp false env).2 = [] := by
        unfold execute_trade
        rw [ha, hq]
        by_cases hh : a = ("hold")
        · simp [hh]
        · simp [hh, haL, haS]
      refine ⟨fun hc => absurd hc haL, fun hc => absurd hc haS, ?_, ?_⟩
      · intro ps1 sz1 t1 s1 hmem
        rw [hred] at hmem
        simp at hmem
      · intro s1 p1 c1 hmem
        rw [hred] at hmem
        simp at hmem

/-- The spec's Example 2 decision: open_long sized 0.005 with
take-profit 3400 below and stop-loss 3600 above the 3500 entry. -/
def decisionEx2 : JValue := mkDecision ("open_long") ("high") ("ex2") (1/200) 3600 3400

/-- Execution environment for Example 2: order accepted, entry resolved
at 3500. -/
def envEx2 : ExecEnv := { placeApiOk := true, entryPx := some 3500, attempts := [] }

/-- C5 witness: on Example 2 the executor returns False having submitted
exactly the opening market order of 0.05 lots. -/
theorem c5_direction_witness :
    execute_trade decisionEx2 3500 false envEx2 =
      (false, [Event.marketOrder ("buy") ("long") ((1:ℚ)/20)]) := by
  have hpos : 0 < clamp_position_size (1/200) := by
    norm_num [clamp_position_size, MIN_ORDER_SIZE, MAX_ORDER_SIZE]
  have h := (c5_direction_check decisionEx2 3500 envEx2 ("open_long") (1/200) 3400 3600
    rfl rfl rfl rfl hpos rfl).1 rfl (Or.inl (by norm_num [envEx2]))
  rw [h]
  have hcl : clamp_position_size ((1:ℚ)/200) / CONTRACT_VALUE = (1:ℚ)/20 := by
    norm_num [clamp_position_size, MIN_ORDER_SIZE, MAX_ORDER_SIZE, CONTRACT_VALUE]
  rw [hcl]

set_option maxRecDepth 100000 in
/-- C7 counterexample: on cexStr the first-brace-to-last-brace substring
parses and validates to a decision of size 0.005, so a parser with the
spec's tier sequence returns that decision — but the v5 parser, whose
third tier is the field-by-field heuristic and which has no boundary
tier, returns the heuristic decision of size 0 instead.  Hence the
claimed boundary tier is not part of the v5 parser's tier sequence. -/
theorem c7_counterexample :
    parse_ai_response poCex cexStr = mkDecision ("open_long") ("medium") ("r") 0 0 0
    ∧ boundary_tier validate_decision_format poCex.jsonLoads cexStr = some cexDecision
    ∧ parse_ai_response_spec poCex cexStr = cexDecision
    ∧ getNumField (parse_ai_response poCex cexStr)
        ("position_management") ("position_size") = some 0
    ∧ getNumField (parse_ai_response_spec poCex cexStr)
        ("position_management") ("position_size") = some (1/200)
    ∧ parse_ai_response poCex cexStr ≠ parse_ai_response_spec poCex cexStr := by
  have h4 : getNumField (parse_ai_response poCex cexStr)
      ("position_management") ("position_size") = some 0 := rfl
  have h5 : getNumField (parse_ai_response_spec poCex cexStr)
      ("position_management") ("position_size") = some (1/200) := rfl
  refine ⟨rfl, rfl, rfl, h4, h5, ?_⟩
  intro h
  rw [congrArg (fun d => getNumField d ("position_management") ("position_size")) h] at h4
  rw [h5] at h4
  exact absurd (Option.some.inj h4) (by norm_num)

/-- C7 as amended: the first-brace-to-last-brace tier belongs to the v1
parser, where it is the third and final parsing tier — when the
full-string tier and every nested-regex candidate fail and the boundary
substring parses and validates, the v1 parser returns exactly that
decision.  The v5 parser has no such tier (its third tier is the
field-by-field heuristic), as the counterexample shows. -/
theorem c7_amended_v1_boundary (po : ParserOracle) (s : String) (d : JValue)
    (h1 : tier_full validate_decision_format_v1 po.jsonLoads s = none)
    (h2 : first_valid_json validate_decision_format_v1 po.jsonLoads id
      (po.nestedMatches s) = none)
    (h3 : boundary_tier validate_decision_format_v1 po.jsonLoads s = some d) :
    parse_ai_response_v1 po s = d := by
  unfold parse_ai_response_v1
  rw [h1, h2, h3]

set_option maxRecDepth 100000 in
/-- C7 witness: on the concrete scenario the v1 parser does recover the
boundary-substring decision. -/
theorem c7_amended_witness : parse_ai_response_v1 poCex cexStr = cexDecision :=
  c7_amended_v1_boundary poCex cexStr cexDecision rfl rfl rfl
